import Mathlib

/-!
Shallow embedding of the searchable-selection widget core of the
SomeJavaScript repository: `Select` (web-components/select/select.js),
`Typeahead` (the typeahead subclass) and `DynamicTypeahead`
(web-components/select/dynamic-typeahead.js).

Modelling conventions:
* A raw record is `Rec` (the JS objects held in the store); the default
  label derivation reads its `label` field (`item.label || ""`, as
  installed by the source's init method).
* A store entry (the JS object `{ data, node, content, next, prev }`
  produced by `make_store_nodes`) is identified by its index into the
  current store; reference identity between entries is index equality.
  The mutable `next`/`prev` ring links are maps `Nat → Option Nat`
  (`none` models the JS `null` link).  JS `null` and `undefined` are
  both modelled by `none` (both are falsy and both throw on property
  access, which is all the modelled code does with them).
* DOM-only effects (css classes, aria attributes, scrolling, the
  document fragment) are omitted; state-bearing effects (the item
  list, links, flags, the input element's value, emitted
  "select-change" events) are kept.  A JS runtime `TypeError`
  (property access on `undefined`) is `Except.error`.
* The overlay positioning of the dropdown container is modelled
  separately (`OverlayState`), with the anchor rectangle and the window
  scroll offsets supplied as environment inputs.
-/

namespace SomeJS

/-- A raw record of the data store.  The default label derivation
installed by the source's init method reads `item.label`. -/
structure Rec where
  label : String
deriving DecidableEq, Repr

instance : Inhabited Rec := ⟨⟨""⟩⟩

/-- JS `a || b` on strings: the empty string is falsy. -/
def js_or (a b : String) : String := if a = "" then b else a

/-- Default `fn_label` from the source init: `(item) => item.label || ""`. -/
def fn_label_default (r : Rec) : String := js_or r.label ""

/-- Model of JS `String.prototype.toLowerCase` (ASCII range, via
`Char.toLower`, applied characterwise). -/
def js_to_lower (s : String) : String := { data := s.data.map Char.toLower }

/-- `starts_with hay needle`: `needle` is an initial segment of `hay`. -/
def starts_with : List Char → List Char → Bool
  | _, [] => true
  | [], _ :: _ => false
  | c :: cs, d :: ds => c == d && starts_with cs ds

/-- Model of JS `String.prototype.includes` on character lists:
`needle` occurs contiguously somewhere in `hay`. -/
def char_includes : List Char → List Char → Bool
  | [], needle => needle.isEmpty
  | c :: rest, needle => starts_with (c :: rest) needle || char_includes rest needle

/-- Model of JS `String.prototype.includes`. -/
def js_includes (hay needle : String) : Bool := char_includes hay.toList needle.toList

/-- The state of a widget instance (shared by `Select`, `Typeahead` and
`DynamicTypeahead`; the subclass differences are the configuration
fields and which handlers run).  Entries are store indices. -/
structure SelectState where
  /-- `this._store`: the current catalog (raw records; entry `j` wraps
  `store[j]`). -/
  store : List Rec
  /-- `this.#items`: the currently visible entries, as store indices. -/
  items : List Nat
  /-- `this.#item`: the committed (selected) entry. -/
  item : Option Nat
  /-- `this.#active`: the highlighted entry of the open dropdown. -/
  active : Option Nat
  /-- `this.#is_open`. -/
  is_open : Bool
  /-- Mutable ring link `entry.next` of each entry. -/
  next : Nat → Option Nat
  /-- Mutable ring link `entry.prev` of each entry. -/
  prev : Nat → Option Nat
  /-- `this.cycle_when_closed` (true for `Select`/`Typeahead`,
  false for `DynamicTypeahead`). -/
  cycle_when_closed : Bool
  /-- `this.min_characters` (the `#matches` backing field). -/
  min_characters : Nat
  /-- `this.handle_min_characters`. -/
  handle_min_characters : Bool
  /-- The text content of the input element. -/
  input_value : String
  /-- Log of the payloads of emitted "select-change" notifications. -/
  emitted : List Rec

/-- `this.label` getter: `this.item && this.fn_label(this.item.data) || ""`. -/
def widget_label (s : SelectState) : String :=
  match s.item with
  | some j => js_or (fn_label_default (s.store.getD j default)) ""
  | none => ""

/-- Local (synchronous) `Select.refresh`: filter the store by
case-insensitive substring match of the query against each entry's
label, preserving store order. -/
def local_refresh (s : SelectState) (value : String) : List Nat :=
  (List.range s.store.length).filter
    (fun j => js_includes (js_to_lower (fn_label_default (s.store.getD j default)))
      (js_to_lower value))

/-- Pointwise update of a link map. -/
def updf (f : Nat → Option Nat) (k : Nat) (v : Option Nat) : Nat → Option Nat :=
  fun j => if j = k then v else f j

/-- One iteration of the loop body of `Select.fill`:
`curr.next = items[(i + 1) % items.length]; curr.next.prev = curr`. -/
def fill_step (vs : List Nat) (np : (Nat → Option Nat) × (Nat → Option Nat)) (i : Nat) :
    (Nat → Option Nat) × (Nat → Option Nat) :=
  let curr := vs.getD i 0
  let nx := vs.getD ((i + 1) % vs.length) 0
  (updf np.1 curr (some nx), updf np.2 nx (some curr))

/-- The `next`-link component of one `fill` loop iteration. -/
def next_upd (vs : List Nat) (f : Nat → Option Nat) (i : Nat) : Nat → Option Nat :=
  updf f (vs.getD i 0) (some (vs.getD ((i + 1) % vs.length) 0))

/-- `Select.fill`: store the visible list and rewrite the ring links of
its members to one circular cycle in the given order (entries outside
`vs` keep their stale links, as in the source). -/
def fill (s : SelectState) (vs : List Nat) : SelectState :=
  let np := (List.range vs.length).foldl (fill_step vs) (s.next, s.prev)
  { s with items := vs, next := np.1, prev := np.2 }

/-- `Select.empty`: clear the visible list. -/
def empty_items (s : SelectState) : SelectState := { s with items := [] }

/-- `Select.reset`: clear the active entry, mark closed, empty the list
and mirror the selected label into the input. -/
def reset (s : SelectState) : SelectState :=
  let s1 := empty_items { s with active := none, is_open := false }
  { s1 with input_value := widget_label s1 }

/-- `Select.on_li_click_handler`: commit an entry; emit one
"select-change" notification exactly when the committed entry differs
by identity from the previous one.  Committing a missing entry whose
identity differs from the previous selection throws when its `data`
field is read for the notification payload. -/
def on_li_click (s : SelectState) (j : Option Nat) : Except String SelectState :=
  let current := s.item
  let s1 := reset { s with item := j }
  if j ≠ current then
    match j with
    | some k => Except.ok { s1 with emitted := s1.emitted ++ [s1.store.getD k default] }
    | none => Except.error "TypeError: cannot read properties of undefined (reading data)"
  else Except.ok s1

/-- `Select.select_index`: select the entry at index `i`; an index with
no entry (at or past the store length) selects nothing. -/
def select_index (s : SelectState) (i : Nat) : SelectState :=
  let s1 := { s with item := if s.store.length ≤ i then none else some i }
  { s1 with input_value := widget_label s1 }

/-- The `Select` store setter: rebuild the store entries (with fresh
null links), fill the dropdown with everything and select the first
entry. -/
def set_store_plain (s : SelectState) (recs : List Rec) : SelectState :=
  let s1 := { s with store := recs, next := fun _ => none, prev := fun _ => none }
  select_index (fill s1 (List.range recs.length)) 0

/-- The `Typeahead` store setter: rebuild the store entries only. -/
def set_store_typeahead (s : SelectState) (recs : List Rec) : SelectState :=
  { s with store := recs, next := fun _ => none, prev := fun _ => none }

/-- `Select.on_input_click_handler`: toggle the dropdown; on opening,
refresh with the empty query, fill, and restore the highlight to the
selected entry when one exists. -/
def select_click (s : SelectState) : SelectState :=
  if s.is_open then reset s
  else
    let s1 := { s with is_open := true }
    let s2 := fill s1 (local_refresh s1 "")
    match s2.item with
    | some j => { s2 with active := some j }
    | none => s2

/-- The minimum-length gate of the `Typeahead` handlers: a query below
the threshold is suppressed (`none`) when `handle_min_characters` is
disabled and treated as empty otherwise. -/
def input_gate (s : SelectState) (value : String) : Option String :=
  if value.length < s.min_characters then
    if s.handle_min_characters then some "" else none
  else some value

/-- The synchronous prefix of `Typeahead.on_input_input_handler`, up to
(and excluding) the suspension at `await this.refresh(value)`: record
the typed text, apply the minimum-length gate and empty the list.
`none` is the gate's early return. -/
def input_pre (s : SelectState) (value : String) : Option (SelectState × String) :=
  match input_gate s value with
  | none => none
  | some v => some (empty_items { s with input_value := value }, v)

/-- The refresh step at the handler's suspension point.  `dyn = false`
is `Select.refresh` (synchronous local filter); `dyn = true` is
`DynamicTypeahead.refresh`, which replaces the store with the fetched
records `resp` (fresh entries, null links) and returns all of them. -/
def do_refresh (dyn : Bool) (resp : List Rec) (s : SelectState) (v : String) :
    SelectState × List Nat :=
  if dyn then
    ({ s with store := resp, next := fun _ => none, prev := fun _ => none },
      List.range resp.length)
  else (s, local_refresh s v)

/-- The continuation of `Typeahead.on_input_input_handler` after the
awaited refresh resolves: clear the highlight and fill with the
response (the subsequent open/close of the dropdown container does not
touch any modelled state; in particular `is_open` is never assigned). -/
def input_post (dyn : Bool) (resp : List Rec) (s : SelectState) (v : String) : SelectState :=
  let p := do_refresh dyn resp s v
  fill { p.1 with active := none } p.2

/-- `Typeahead.on_input_input_handler` run to completion with response
`resp` (no interleaved handler). -/
def typeahead_input_event (dyn : Bool) (resp : List Rec) (s : SelectState)
    (value : String) : SelectState :=
  match input_pre s value with
  | none => { s with input_value := value }
  | some (s1, v) => input_post dyn resp s1 v

/-- `Typeahead.on_input_click_handler`: toggle; on opening, gate on the
input text, query with the empty string when an entry is selected, and
fill/highlight on a non-empty response. -/
def typeahead_click (dyn : Bool) (resp : List Rec) (s : SelectState) : SelectState :=
  if s.is_open then reset s
  else
    let s1 := { s with is_open := true }
    match input_gate s1 s1.input_value with
    | none => s1
    | some _ =>
      let value := if s1.item.isSome then "" else s1.input_value
      let p := do_refresh dyn resp s1 value
      if p.2.length = 0 then { p.1 with input_value := value }
      else
        let s2 := fill p.1 p.2
        match s2.item with
        | some j => { s2 with active := some j }
        | none => s2

/-- The three widget classes of the source. -/
inductive Variant where
  | plain
  | typeahead
  | dynamic
deriving DecidableEq, Repr

/-- The click handler dispatched for a variant (`Typeahead` and
`DynamicTypeahead` share the overridden handler; only the refresh
differs). -/
def click_for (v : Variant) (resp : List Rec) (s : SelectState) : SelectState :=
  match v with
  | .plain => select_click s
  | .typeahead => typeahead_click false resp s
  | .dynamic => typeahead_click true resp s

/-- The keys handled by `Select.on_input_key_down_handler`. -/
inductive Key where
  | arrow_down
  | arrow_up
  | enter
  | escape
  | other
deriving DecidableEq, Repr

/-- The entry targeted by an open-list arrow navigation: from a null
highlight, the first (ArrowDown) or last (ArrowUp) visible entry (JS
`undefined` on an empty list); otherwise the highlight's `next`/`prev`
ring link. -/
def nav_target (s : SelectState) (k : Key) : Option Nat :=
  match s.active with
  | none => if k = Key.arrow_down then s.items.head? else s.items.getLast?
  | some j => if k = Key.arrow_down then s.next j else s.prev j

/-- Applying an arrow-navigation target: assign `this.active` and mirror
its label into the input (`this.fn_label(this.active.data)` — a JS
`TypeError` when the target is missing). -/
def nav_apply (s : SelectState) (a : Option Nat) : Except String SelectState :=
  match a with
  | none => Except.error "TypeError: cannot read properties of undefined (reading data)"
  | some j =>
    Except.ok { s with
      active := some j
      input_value := fn_label_default (s.store.getD j default) }

/-- The entry committed by an arrow keydown while closed with cycling
enabled: `this.store[0]`, or the selection's `next`/`prev` link. -/
def cycle_target (s : SelectState) (k : Key) : Option Nat :=
  match s.item with
  | none => if s.store.length = 0 then none else some 0
  | some j => if k = Key.arrow_down then s.next j else s.prev j

/-- `Select.on_input_key_down_handler` (shared by all variants; `resp`
is the fetch response consumed if the Enter-while-closed path triggers a
dynamic refresh).  `Except.error` models the JS `TypeError` thrown when
the handler reads `data` on an `undefined` active entry. -/
def on_input_key_down (v : Variant) (resp : List Rec) (s : SelectState)
    (k : Key) (shift : Bool) : Except String SelectState :=
  if shift = true ∧ k = Key.arrow_up then Except.ok s
  else if k = Key.arrow_down ∨ k = Key.arrow_up then
    if s.is_open = false ∧ s.cycle_when_closed = true then
      on_li_click s (cycle_target s k)
    else if s.items.length = 0 ∧ s.cycle_when_closed = false then Except.ok s
    else nav_apply s (nav_target s k)
  else if k = Key.enter then
    if s.is_open = false then Except.ok (click_for v resp s)
    else
      match s.active with
      | some j => on_li_click s (some j)
      | none =>
        if 0 < s.items.length then on_li_click s s.items.head?
        else Except.ok s
  else if k = Key.escape then Except.ok (reset s)
  else Except.ok s

/-- `Select.on_input_blur_handler`: reset and close. -/
def on_input_blur (s : SelectState) : SelectState := reset s

/-- The externally triggerable operations of a widget instance. -/
inductive Op where
  | click (v : Variant) (resp : List Rec)
  | key (v : Variant) (k : Key) (shift : Bool) (resp : List Rec)
  | input_ev (dyn : Bool) (value : String) (resp : List Rec)
  | blur
  | store_set (plain_variant : Bool) (recs : List Rec)
  | sel_idx (i : Nat)

/-- Apply one operation to the widget state. -/
def apply_op : Op → SelectState → Except String SelectState
  | .click v resp, s => Except.ok (click_for v resp s)
  | .key v k sh resp, s => on_input_key_down v resp s k sh
  | .input_ev dyn value resp, s => Except.ok (typeahead_input_event dyn resp s value)
  | .blur, s => Except.ok (on_input_blur s)
  | .store_set p recs, s =>
      Except.ok (if p then set_store_plain s recs else set_store_typeahead s recs)
  | .sel_idx i, s => Except.ok (select_index s i)

/-- State after `Select`'s init method: no selection, no highlight,
closed, cycling enabled.  The store and the visible list start empty
(unset in the source); `min_characters` is never consulted by the plain
`Select`, modelled as `0` (the gate never fires). -/
def init_select : SelectState :=
  { store := [], items := [], item := none, active := none, is_open := false,
    next := fun _ => none, prev := fun _ => none, cycle_when_closed := true,
    min_characters := 0, handle_min_characters := true, input_value := "",
    emitted := [] }

/-- State after `Typeahead`'s init method.  Note: the source assigns
`this.matches = 2`, a stray expando property that never reaches the
`#matches` backing field of `min_characters`; the gate comparison
against the resulting `undefined` is always false, equivalent to a
threshold of `0`. -/
def init_typeahead : SelectState :=
  { init_select with items := [], min_characters := 0, handle_min_characters := true }

/-- State after `DynamicTypeahead`'s init method: threshold 3, gate
suppression (`handle_min_characters = false`), no cycling while
closed. -/
def init_dynamic : SelectState :=
  { init_typeahead with
    min_characters := 3
    handle_min_characters := false
    cycle_when_closed := false }

/-- Iterate `f` along the `next` links, `k` steps. -/
def next_iter (f : Nat → Option Nat) : Nat → Nat → Option Nat
  | 0, x => some x
  | k + 1, x =>
    match f x with
    | none => none
    | some y => next_iter f k y

/-- Repeat an ArrowDown keydown `k` times, stopping at the first thrown
error. -/
def iter_keydown (v : Variant) (resp : List Rec) : Nat → SelectState → Except String SelectState
  | 0, s => Except.ok s
  | k + 1, s =>
    match on_input_key_down v resp s Key.arrow_down false with
    | Except.ok s1 => iter_keydown v resp k s1
    | Except.error e => Except.error e

/-- The active entry of a handler result (`none` on a thrown error or a
cleared highlight). -/
def active_after (r : Except String SelectState) : Option Nat :=
  match r with
  | Except.ok s => s.active
  | Except.error _ => none

/-- The `is_open` flag of a handler result. -/
def open_after (r : Except String SelectState) : Option Bool :=
  match r with
  | Except.ok s => some s.is_open
  | Except.error _ => none

/-- Whether a handler result is a thrown error. -/
def errored (r : Except String SelectState) : Bool :=
  match r with
  | Except.ok _ => false
  | Except.error _ => true

/-- `Select`'s init method as a construction step: the source assigns
state and default derivation functions unconditionally (lines 289-309
of select.js) and contains no validation, so construction never throws;
a missing host-supplied label or content derivation is silently covered
by the defaults. -/
def construct_select : Except String SelectState := Except.ok init_select

/-- The anchor rectangle of the input element
(`getBoundingClientRect`). -/
structure Rect where
  bottom : Int
  left : Int
  width : Int
deriving DecidableEq, Repr

/-- The window scroll offsets. -/
structure Viewport where
  scroll_x : Int
  scroll_y : Int
deriving DecidableEq, Repr

/-- The overlay (dropdown container) placement state:  the inline style
of the container (`none` = never set), whether the container is placed
in `document.body`, whether the window resize listener is attached, and
the widget's `is_open` flag consulted by the position update. -/
structure OverlayState where
  top : Option Int
  left : Option Int
  width : Option Int
  in_body : Bool
  resize_attached : Bool
  is_open : Bool
deriving DecidableEq, Repr

/-- `Select.update_dropdown_position`: when the widget is open, set
top = anchor bottom + scrollY, left = anchor left + scrollX,
width = anchor width. -/
def update_dropdown_position (r : Rect) (vp : Viewport) (o : OverlayState) : OverlayState :=
  if o.is_open then
    { o with
      top := some (r.bottom + vp.scroll_y)
      left := some (r.left + vp.scroll_x)
      width := some r.width }
  else o

/-- `Select.open_dropdown`: place the container in the body, update the
position from the current anchor geometry and attach the resize
listener. -/
def open_dropdown (r : Rect) (vp : Viewport) (o : OverlayState) : OverlayState :=
  let o1 := update_dropdown_position r vp { o with in_body := true }
  { o1 with resize_attached := true }

/-- `Select.close_dropdown`: remove the container from the body and
detach the resize listener. -/
def close_dropdown (o : OverlayState) : OverlayState :=
  { o with in_body := false, resize_attached := false }

/-- A window resize event: when the listener is attached it runs the
handler installed by the init method, `() => this.close_dropdown()`
(the new anchor geometry is never consulted). -/
def resize_event (o : OverlayState) : OverlayState :=
  if o.resize_attached then close_dropdown o else o

/-! Concrete inputs used by the per-claim counterexamples and
witnesses. -/

/-- Response of the fetch delegate to the generation-1 query "abc". -/
def race_r1 : List Rec := [⟨"abc one"⟩]

/-- Response of the fetch delegate to the generation-2 query "abcd". -/
def race_r2 : List Rec := [⟨"abcd one"⟩, ⟨"abcd two"⟩]

/-- The two debounced input handlers of a `DynamicTypeahead` run up to
their suspension points: the generation-1 query "abc" is issued, then
the generation-2 query "abcd" before the first resolves. -/
def race_after_issue : Option SelectState :=
  (input_pre init_dynamic "abc").bind (fun p => (input_pre p.1 "abcd").map Prod.fst)

/-- The responses then arrive out of order: generation 2 first, the
stale generation-1 response last.  Each resuming handler applies its
own response unconditionally — the source has no generation check. -/
def race_final : Option SelectState :=
  race_after_issue.map (fun s => input_post true race_r1 (input_post true race_r2 s "abcd") "abc")

/-- Visible set produced by the generation-2 response alone (what the
spec requires the final state to equal). -/
def race_gen2_only : SelectState :=
  (input_pre init_dynamic "abcd").elim init_dynamic (fun p => input_post true race_r2 p.1 p.2)

/-- `DynamicTypeahead` state after typing "abc" (debounced input event
with a one-record response): the dropdown container is shown but the
`is_open` flag is never assigned by the input handler. -/
def c5_state : SelectState := typeahead_input_event true [⟨"abcx"⟩] init_dynamic "abc"

/-- ArrowDown pressed in that state. -/
def c5_result : Except String SelectState :=
  on_input_key_down Variant.dynamic [] c5_state Key.arrow_down false

/-- A two-record catalog. -/
def two_recs : List Rec := [⟨"alpha"⟩, ⟨"beta"⟩]

/-- A three-record catalog. -/
def three_recs : List Rec := [⟨"alpha"⟩, ⟨"beta"⟩, ⟨"gamma"⟩]

/-- A plain `Select` over two records, opened by a click: the visible
set is the full catalog `[0, 1]`. -/
def c2_cex_state : SelectState := select_click (set_store_plain init_select two_recs)

/-- An open widget whose visible set is empty (reachable for the plain
`Select` by clicking with an empty store). -/
def c8_state : SelectState := select_click (set_store_plain init_select [])

/-- An open three-record widget whose ring was filled from the visible
list [0, 1, 2], used to instantiate the ring-cycle theorem. -/
def c2_wit_state : SelectState := { init_select with store := three_recs, is_open := true }

/-- An open two-record widget with a null highlight. -/
def c10_open_state : SelectState :=
  { select_click (set_store_plain init_select two_recs) with active := none }

/-- Overlay of a freshly opened widget before placement. -/
def c7_base : OverlayState :=
  { top := none, left := none, width := none, in_body := false,
    resize_attached := false, is_open := true }

/-- Anchor geometry at open time. -/
def c7_rect1 : Rect := ⟨10, 5, 100⟩

/-- Anchor geometry after the viewport resize. -/
def c7_rect2 : Rect := ⟨20, 7, 120⟩

/-- Scroll offsets. -/
def c7_vp : Viewport := ⟨0, 3⟩

/-- Overlay after opening the dropdown of an open widget. -/
def c7_open_state : OverlayState := open_dropdown c7_rect1 c7_vp c7_base

/-- Overlay after a viewport resize occurring while open. -/
def c7_after_resize : OverlayState := resize_event c7_open_state

/-- A `Select` over two records whose construction supplied no label or
content derivation function, opened by a click. -/
def c9_used : SelectState := select_click (set_store_plain init_select two_recs)

/-- The labels of the currently visible entries, in display order. -/
def visible_labels (s : SelectState) : List String :=
  s.items.map (fun j => fn_label_default (s.store.getD j default))

/-- The invariant of claim C5: a closed widget has no highlighted
entry. -/
def closed_active (s : SelectState) : Prop := s.is_open = false → s.active = none

/-!  Helper lemmas (shared across the claim theorems). -/

theorem js_or_empty (a : String) : js_or a "" = a := by
  by_cases h : a = "" <;> simp [js_or, h]

theorem char_includes_nil (hay : List Char) : char_includes hay [] = true := by
  cases hay <;> simp [char_includes, starts_with, List.isEmpty]

theorem js_includes_empty (hay : String) : js_includes hay "" = true := by
  simpa [js_includes] using char_includes_nil hay.toList

theorem js_to_lower_empty : js_to_lower "" = "" := by decide

theorem local_refresh_empty_query (s : SelectState) :
    local_refresh s "" = List.range s.store.length := by
  apply List.filter_eq_self.mpr
  intro j _
  simpa [js_to_lower_empty] using
    js_includes_empty (js_to_lower (fn_label_default (s.store.getD j default)))

theorem foldl_fill_step_fst (vs l : List Nat) (f g : Nat → Option Nat) :
    (l.foldl (fill_step vs) (f, g)).1 = l.foldl (next_upd vs) f := by
  induction l generalizing f g with
  | nil => rfl
  | cons i t ih =>
    simp only [List.foldl_cons]
    exact ih _ _

theorem next_upd_ne (vs : List Nat) (f : Nat → Option Nat) (i : Nat) {x : Nat}
    (h : vs.getD i 0 ≠ x) : next_upd vs f i x = f x := by
  unfold next_upd updf
  exact if_neg (fun he => h he.symm)

theorem next_upd_eq (vs : List Nat) (f : Nat → Option Nat) (i : Nat) :
    next_upd vs f i (vs.getD i 0) = some (vs.getD ((i + 1) % vs.length) 0) := by
  simp [next_upd, updf]

theorem foldl_next_upd_frozen (vs : List Nat) (l : List Nat) (f : Nat → Option Nat) (x : Nat)
    (h : ∀ i ∈ l, vs.getD i 0 ≠ x) : l.foldl (next_upd vs) f x = f x := by
  induction l generalizing f with
  | nil => rfl
  | cons i t ih =>
    simp only [List.foldl_cons]
    rw [ih _ (fun j hj => h j (List.mem_cons_of_mem _ hj))]
    exact next_upd_ne vs f i (h i (List.mem_cons_self _ _))

theorem nodup_getD_ne (vs : List Nat) (hnd : vs.Nodup) {i j : Nat}
    (hi : i < vs.length) (hj : j < vs.length) (hij : i ≠ j) :
    vs.getD i 0 ≠ vs.getD j 0 := by
  intro he
  apply hij
  rw [List.getD_eq_getElem vs 0 hi, List.getD_eq_getElem vs 0 hj] at he
  exact (hnd.getElem_inj_iff).mp he

theorem foldl_next_upd_mem (vs : List Nat) (hnd : vs.Nodup) (l : List Nat)
    (hl : ∀ i ∈ l, i < vs.length) (f : Nat → Option Nat) {j : Nat}
    (hj : j < vs.length) (hmem : j ∈ l) :
    l.foldl (next_upd vs) f (vs.getD j 0) = some (vs.getD ((j + 1) % vs.length) 0) := by
  induction l generalizing f with
  | nil => cases hmem
  | cons i t ih =>
    simp only [List.foldl_cons]
    by_cases hjt : j ∈ t
    · exact ih (fun a ha => hl a (List.mem_cons_of_mem _ ha)) _ hjt
    · have hij : i = j := by
        rcases List.mem_cons.mp hmem with h | h
        · exact h.symm
        · exact absurd h hjt
      subst hij
      rw [foldl_next_upd_frozen vs t _ _ (fun a ha => by
        exact nodup_getD_ne vs hnd (hl a (List.mem_cons_of_mem _ ha)) hj
          (fun he => hjt (he ▸ ha)))]
      exact next_upd_eq vs f i

theorem fill_next_eq (s : SelectState) (vs : List Nat) (hnd : vs.Nodup) {j : Nat}
    (hj : j < vs.length) :
    (fill s vs).next (vs.getD j 0) = some (vs.getD ((j + 1) % vs.length) 0) := by
  show ((List.range vs.length).foldl (fill_step vs) (s.next, s.prev)).1 (vs.getD j 0) = _
  rw [foldl_fill_step_fst]
  exact foldl_next_upd_mem vs hnd _ (fun i hi => List.mem_range.mp hi) s.next hj
    (List.mem_range.mpr hj)

theorem next_iter_fill (s : SelectState) (vs : List Nat) (hnd : vs.Nodup)
    (k : Nat) : ∀ {j : Nat}, j < vs.length →
    next_iter (fill s vs).next k (vs.getD j 0) = some (vs.getD ((j + k) % vs.length) 0) := by
  induction k with
  | zero =>
    intro j hj
    simp [next_iter, Nat.mod_eq_of_lt hj]
  | succ k ih =>
    intro j hj
    have h1 : (j + 1) % vs.length < vs.length :=
      Nat.mod_lt _ (Nat.lt_of_le_of_lt (Nat.zero_le j) hj)
    calc next_iter (fill s vs).next (k + 1) (vs.getD j 0)
        = next_iter (fill s vs).next k (vs.getD ((j + 1) % vs.length) 0) := by
          rw [next_iter, fill_next_eq s vs hnd hj]
      _ = some (vs.getD (((j + 1) % vs.length + k) % vs.length) 0) := ih h1
      _ = some (vs.getD ((j + (k + 1)) % vs.length) 0) := by
          rw [Nat.mod_add_mod]
          have h2 : j + 1 + k = j + (k + 1) := by omega
          rw [h2]

@[simp] theorem fill_items (s : SelectState) (vs : List Nat) : (fill s vs).items = vs := rfl

@[simp] theorem fill_is_open (s : SelectState) (vs : List Nat) :
    (fill s vs).is_open = s.is_open := rfl

@[simp] theorem fill_active (s : SelectState) (vs : List Nat) :
    (fill s vs).active = s.active := rfl

@[simp] theorem fill_item (s : SelectState) (vs : List Nat) : (fill s vs).item = s.item := rfl

@[simp] theorem fill_store (s : SelectState) (vs : List Nat) : (fill s vs).store = s.store := rfl

@[simp] theorem fill_emitted (s : SelectState) (vs : List Nat) :
    (fill s vs).emitted = s.emitted := rfl

@[simp] theorem reset_active (s : SelectState) : (reset s).active = none := rfl

@[simp] theorem reset_is_open (s : SelectState) : (reset s).is_open = false := rfl

@[simp] theorem reset_items (s : SelectState) : (reset s).items = [] := rfl

@[simp] theorem reset_item (s : SelectState) : (reset s).item = s.item := rfl

@[simp] theorem reset_store (s : SelectState) : (reset s).store = s.store := rfl

@[simp] theorem reset_emitted (s : SelectState) : (reset s).emitted = s.emitted := rfl

theorem on_li_click_some (s : SelectState) (k : Nat) :
    ∃ s', on_li_click s (some k) = Except.ok s' ∧ s'.item = some k ∧ s'.active = none ∧
      s'.is_open = false ∧ s'.items = [] ∧ s'.store = s.store ∧
      s'.emitted = (if some k = s.item then s.emitted
        else s.emitted ++ [s.store.getD k default]) := by
  by_cases h : some k = s.item
  · refine ⟨reset { s with item := some k }, ?_, rfl, rfl, rfl, rfl, rfl, ?_⟩
    · simp [on_li_click, h]
    · simp [h]
  · refine ⟨{ reset { s with item := some k } with
        emitted := s.emitted ++ [s.store.getD k default] }, ?_, rfl, rfl, rfl, rfl, rfl, ?_⟩
    · simp [on_li_click, h]
    · simp [h]

theorem on_li_click_ok_closed (s : SelectState) (j : Option Nat) (s' : SelectState)
    (h : on_li_click s j = Except.ok s') : s'.active = none ∧ s'.is_open = false := by
  unfold on_li_click at h
  by_cases hj : j = s.item
  · rw [if_neg (by simpa using hj)] at h
    cases h
    exact ⟨rfl, rfl⟩
  · rw [if_pos (by simpa using hj)] at h
    cases j with
    | some k =>
      cases h
      exact ⟨rfl, rfl⟩
    | none => cases h

theorem keydown_nav_step (v : Variant) (resp : List Rec) (s : SelectState) (j j' : Nat)
    (ho : s.is_open = true) (hi : s.items.length ≠ 0)
    (ha : s.active = some j) (hn : s.next j = some j') :
    on_input_key_down v resp s Key.arrow_down false =
      Except.ok { s with
        active := some j'
        input_value := fn_label_default (s.store.getD j' default) } := by
  simp [on_input_key_down, nav_target, nav_apply, ho, hi, ha, hn]

theorem keydown_first_press (v : Variant) (resp : List Rec) (s : SelectState)
    (x : Nat) (t : List Nat) (ho : s.is_open = true) (hi : s.items = x :: t)
    (ha : s.active = none) :
    on_input_key_down v resp s Key.arrow_down false =
      Except.ok { s with
        active := some x
        input_value := fn_label_default (s.store.getD x default) } := by
  simp [on_input_key_down, nav_target, nav_apply, ho, hi, ha]

theorem iter_nav (v : Variant) (resp : List Rec) (vs : List Nat) (F : Nat → Option Nat)
    (hF : ∀ j, j < vs.length → F (vs.getD j 0) = some (vs.getD ((j + 1) % vs.length) 0)) :
    ∀ (k : Nat) (s : SelectState) (j : Nat), s.is_open = true → s.items = vs → vs ≠ [] →
      s.next = F → s.active = some (vs.getD j 0) → j < vs.length →
      ∃ s', iter_keydown v resp k s = Except.ok s' ∧
        s'.active = some (vs.getD ((j + k) % vs.length) 0) := by
  intro k
  induction k with
  | zero =>
    intro s j ho hi hne hn ha hj
    exact ⟨s, rfl, by rw [ha]; simp [Nat.mod_eq_of_lt hj]⟩
  | succ k ih =>
    intro s j ho hi hne hn ha hj
    have hlen : s.items.length ≠ 0 := by
      rw [hi]
      simpa using fun h => hne (List.length_eq_zero.mp h)
    have h1 : (j + 1) % vs.length < vs.length :=
      Nat.mod_lt _ (Nat.lt_of_le_of_lt (Nat.zero_le j) hj)
    have hstep := keydown_nav_step v resp s (vs.getD j 0) (vs.getD ((j + 1) % vs.length) 0)
      ho hlen ha (by rw [hn]; exact hF j hj)
    obtain ⟨s', hiter, hact⟩ := ih
      { s with
        active := some (vs.getD ((j + 1) % vs.length) 0)
        input_value := fn_label_default
          (s.store.getD (vs.getD ((j + 1) % vs.length) 0) default) }
      ((j + 1) % vs.length) ho hi hne hn rfl h1
    refine ⟨s', ?_, ?_⟩
    · show (match on_input_key_down v resp s Key.arrow_down false with
        | Except.ok s1 => iter_keydown v resp k s1
        | Except.error e => Except.error e) = Except.ok s'
      rw [hstep]
      exact hiter
    · rw [hact, Nat.mod_add_mod]
      have h2 : j + 1 + k = j + (k + 1) := by omega
      rw [h2]

@[simp] theorem do_refresh_fst_is_open (dyn : Bool) (resp : List Rec) (s : SelectState)
    (v : String) : (do_refresh dyn resp s v).1.is_open = s.is_open := by
  unfold do_refresh
  split <;> rfl

@[simp] theorem do_refresh_fst_active (dyn : Bool) (resp : List Rec) (s : SelectState)
    (v : String) : (do_refresh dyn resp s v).1.active = s.active := by
  unfold do_refresh
  split <;> rfl

@[simp] theorem do_refresh_fst_item (dyn : Bool) (resp : List Rec) (s : SelectState)
    (v : String) : (do_refresh dyn resp s v).1.item = s.item := by
  unfold do_refresh
  split <;> rfl

@[simp] theorem do_refresh_fst_emitted (dyn : Bool) (resp : List Rec) (s : SelectState)
    (v : String) : (do_refresh dyn resp s v).1.emitted = s.emitted := by
  unfold do_refresh
  split <;> rfl

theorem reset_closed_active (s : SelectState) : closed_active (reset s) := fun _ => rfl

theorem select_click_closed_active (s : SelectState) : closed_active (select_click s) := by
  unfold select_click
  by_cases h : s.is_open = true
  · rw [if_pos h]
    exact fun _ => rfl
  · rw [if_neg h]
    intro habs
    exfalso
    revert habs
    dsimp only
    split <;> simp

theorem typeahead_click_closed_active (dyn : Bool) (resp : List Rec) (s : SelectState) :
    closed_active (typeahead_click dyn resp s) := by
  unfold typeahead_click
  by_cases h : s.is_open = true
  · rw [if_pos h]
    exact fun _ => rfl
  · rw [if_neg h]
    intro habs
    exfalso
    revert habs
    dsimp only
    repeat' split
    all_goals simp

theorem click_for_closed_active (v : Variant) (resp : List Rec) (s : SelectState) :
    closed_active (click_for v resp s) := by
  cases v
  · exact select_click_closed_active s
  · exact typeahead_click_closed_active false resp s
  · exact typeahead_click_closed_active true resp s

theorem input_event_closed_active (dyn : Bool) (resp : List Rec) (s : SelectState)
    (value : String) (hs : closed_active s) :
    closed_active (typeahead_input_event dyn resp s value) := by
  unfold typeahead_input_event
  split
  · intro h
    exact hs h
  · intro _
    simp [input_post]

theorem keydown_closed_active (v : Variant) (resp : List Rec) (s : SelectState)
    (k : Key) (sh : Bool) (s' : SelectState) (hcyc : s.cycle_when_closed = true)
    (hs : closed_active s) (h : on_input_key_down v resp s k sh = Except.ok s') :
    closed_active s' := by
  unfold on_input_key_down at h
  split at h
  · cases h
    exact hs
  · split at h
    · split at h
      · intro _
        exact (on_li_click_ok_closed _ _ _ h).1
      · split at h
        · cases h
          exact hs
        · rename_i hnotclosed _
          unfold nav_apply at h
          split at h
          · cases h
          · cases h
            intro habs
            exact absurd ⟨habs, hcyc⟩ hnotclosed
    · split at h
      · split at h
        · cases h
          exact click_for_closed_active v resp s
        · split at h
          · intro _
            exact (on_li_click_ok_closed _ _ _ h).1
          · split at h
            · intro _
              exact (on_li_click_ok_closed _ _ _ h).1
            · cases h
              exact hs
      · split at h
        · cases h
          exact fun _ => rfl
        · cases h
          exact hs

theorem select_click_of_closed_is_open (s : SelectState) (h : s.is_open = false) :
    (select_click s).is_open = true := by
  unfold select_click
  rw [if_neg (by simp [h])]
  dsimp only
  split <;> rfl

theorem select_click_of_closed_items (s : SelectState) (h : s.is_open = false) :
    (select_click s).items = List.range s.store.length := by
  unfold select_click
  rw [if_neg (by simp [h])]
  dsimp only
  split <;> simp [local_refresh_empty_query]

theorem select_click_of_closed_item (s : SelectState) (h : s.is_open = false) :
    (select_click s).item = s.item := by
  unfold select_click
  rw [if_neg (by simp [h])]
  dsimp only
  split
  · rfl
  · rfl

theorem select_click_emitted (s : SelectState) : (select_click s).emitted = s.emitted := by
  unfold select_click
  by_cases h : s.is_open = true
  · rw [if_pos h]
    rfl
  · rw [if_neg h]
    dsimp only
    split <;> rfl

/-!  Claim theorems. -/

/-- C1: the claim requires a stale asynchronous response (one whose
generation is below the highest issued) to be discarded, leaving the
visible set equal to the highest-generation response only.  The input
handler of the source has no generation guard: in the spec's own
scenario — query "abc" (generation 1) issued, query "abcd"
(generation 2) issued before it resolves, responses arriving out of
order — the late generation-1 response is applied unconditionally and
overwrites the visible set, which therefore differs from the
generation-2-only outcome required by the claim. -/
theorem c1_stale_response_overwrites_visible_set :
    race_final.map visible_labels = some ["abc one"] ∧
    visible_labels race_gen2_only = ["abcd one", "abcd two"] ∧
    race_final.map visible_labels ≠ some (visible_labels race_gen2_only) := by
  decide

/-- C2 (amended): after `fill` over a non-empty duplicate-free visible
list of size N, the ring's `next` links form exactly one cycle over the
list in order — each entry links to its successor and following `next`
exactly N times from any member returns to it — and, starting from a
null highlight with the dropdown open, the first ArrowDown lands on the
first entry, so N+1 presses (one more than the claim's N) return the
highlight to the first visible entry. -/
theorem c2_ring_one_cycle_and_arrowdown_wrap (v : Variant) (resp : List Rec)
    (s : SelectState) (vs : List Nat) (hne : vs ≠ []) (hnd : vs.Nodup)
    (ho : s.is_open = true) (ha : s.active = none) :
    (∀ j, j < vs.length →
      (fill s vs).next (vs.getD j 0) = some (vs.getD ((j + 1) % vs.length) 0)) ∧
    (∀ j, j < vs.length →
      next_iter (fill s vs).next vs.length (vs.getD j 0) = some (vs.getD j 0)) ∧
    (∃ s', iter_keydown v resp (vs.length + 1) (fill s vs) = Except.ok s' ∧
      s'.active = some (vs.getD 0 0)) := by
  refine ⟨fun j hj => fill_next_eq s vs hnd hj, fun j hj => ?_, ?_⟩
  · rw [next_iter_fill s vs hnd vs.length hj, Nat.add_mod_right, Nat.mod_eq_of_lt hj]
  · obtain ⟨x, t, rfl⟩ : ∃ x t, vs = x :: t := by
      cases vs with
      | nil => exact absurd rfl hne
      | cons x t => exact ⟨x, t, rfl⟩
    have hlen0 : 0 < (x :: t).length := by simp
    have hstep := keydown_first_press v resp (fill s (x :: t)) x t
      (by simpa using ho) (by simp) (by simpa using ha)
    obtain ⟨s', hiter, hact⟩ := iter_nav v resp (x :: t) (fill s (x :: t)).next
      (fun j hj => fill_next_eq s (x :: t) hnd hj) (x :: t).length
      { fill s (x :: t) with
        active := some x
        input_value := fn_label_default ((fill s (x :: t)).store.getD x default) }
      0 (by simpa using ho) (by simp) (by simp) rfl rfl hlen0
    refine ⟨s', ?_, ?_⟩
    · show (match on_input_key_down v resp (fill s (x :: t)) Key.arrow_down false with
        | Except.ok s1 => iter_keydown v resp (x :: t).length s1
        | Except.error e => Except.error e) = Except.ok s'
      rw [hstep]
      exact hiter
    · rw [hact]
      simp

/-- C2 counterexample: refutes the claim as stated.  The visible set
[0, 1] has size N = 2; in the open widget with a null highlight,
exactly N ArrowDown presses leave the highlight on the second entry
(index 1), not back on the first. -/
theorem c2_two_presses_not_first :
    c2_cex_state.items = [0, 1] ∧ c2_cex_state.is_open = true ∧
    active_after (iter_keydown Variant.plain [] 2 { c2_cex_state with active := none }) =
      some 1 ∧
    active_after (iter_keydown Variant.plain [] 2 { c2_cex_state with active := none }) ≠
      some (c2_cex_state.items.getD 0 0) := by
  decide

/-- C2 witness: the three-entry scenario of the spec — visible set
[0, 1, 2] over a three-record store; the ring is one 3-cycle and
3 + 1 = 4 ArrowDown presses return the highlight to entry 0. -/
theorem c2_ring_one_cycle_and_arrowdown_wrap_witness :
    (([0, 1, 2] : List Nat) ≠ [] ∧ ([0, 1, 2] : List Nat).Nodup ∧
      c2_wit_state.is_open = true ∧ c2_wit_state.active = none) ∧
    ((∀ j, j < ([0, 1, 2] : List Nat).length →
      (fill c2_wit_state [0, 1, 2]).next (([0, 1, 2] : List Nat).getD j 0) =
        some (([0, 1, 2] : List Nat).getD ((j + 1) % ([0, 1, 2] : List Nat).length) 0)) ∧
    (∀ j, j < ([0, 1, 2] : List Nat).length →
      next_iter (fill c2_wit_state [0, 1, 2]).next ([0, 1, 2] : List Nat).length
        (([0, 1, 2] : List Nat).getD j 0) = some (([0, 1, 2] : List Nat).getD j 0)) ∧
    (∃ s', iter_keydown Variant.plain [] (([0, 1, 2] : List Nat).length + 1)
        (fill c2_wit_state [0, 1, 2]) = Except.ok s' ∧
      s'.active = some (([0, 1, 2] : List Nat).getD 0 0))) :=
  ⟨⟨by decide, by decide, rfl, rfl⟩,
    c2_ring_one_cycle_and_arrowdown_wrap Variant.plain [] c2_wit_state [0, 1, 2]
      (by decide) (by decide) rfl rfl⟩

/-- C3: the local synchronous refresh returns exactly the store entries
whose derived label contains the query case-insensitively (lowercasing
both sides, as the source does), it is a sublist of the catalog order,
and the empty query returns the full catalog in original order. -/
theorem c3_local_refresh_exact_caseless_filter (s : SelectState) (v : String) :
    (∀ j, j ∈ local_refresh s v ↔ j < s.store.length ∧
      js_includes (js_to_lower (fn_label_default (s.store.getD j default)))
        (js_to_lower v) = true) ∧
    (local_refresh s v).Sublist (List.range s.store.length) ∧
    local_refresh s "" = List.range s.store.length := by
  refine ⟨fun j => ?_, List.filter_sublist _, local_refresh_empty_query s⟩
  simp [local_refresh, List.mem_filter, List.mem_range]

/-- C4: committing an entry identical by reference to the previous
selection emits nothing; committing a different entry emits exactly one
"select-change" notification carrying the newly selected record (the
commit handler is shared by Enter and pointer clicks). -/
theorem c4_commit_notification_iff_changed (s : SelectState) (j : Nat)
    (_hj : j < s.store.length) :
    (some j = s.item →
      ∃ s', on_li_click s (some j) = Except.ok s' ∧ s'.emitted = s.emitted ∧
        s'.item = some j) ∧
    (some j ≠ s.item →
      ∃ s', on_li_click s (some j) = Except.ok s' ∧
        s'.emitted = s.emitted ++ [s.store.getD j default] ∧ s'.item = some j) := by
  obtain ⟨s', h1, h2, _, _, _, _, h7⟩ := on_li_click_some s j
  constructor
  · intro heq
    exact ⟨s', h1, by rw [h7, if_pos heq], h2⟩
  · intro hne
    exact ⟨s', h1, by rw [h7, if_neg hne], h2⟩

/-- C4 witness: with records [alpha, beta] and entry 0 selected,
committing entry 1 emits exactly one notification carrying beta. -/
theorem c4_commit_notification_iff_changed_witness :
    (1 < (set_store_plain init_select two_recs).store.length ∧
      some 1 ≠ (set_store_plain init_select two_recs).item) ∧
    (∃ s', on_li_click (set_store_plain init_select two_recs) (some 1) = Except.ok s' ∧
      s'.emitted = (set_store_plain init_select two_recs).emitted ++
        [(set_store_plain init_select two_recs).store.getD 1 default] ∧
      s'.item = some 1) :=
  ⟨⟨by decide, by decide⟩,
    (c4_commit_notification_iff_changed (set_store_plain init_select two_recs) 1
      (by decide)).2 (by decide)⟩

/-- C5 (amended): the invariant "closed implies no highlighted entry"
is preserved by every operation provided `cycle_when_closed` is enabled
(the `Select` and `Typeahead` configurations).  It is not an invariant
of the `DynamicTypeahead` configuration: see the counterexample. -/
theorem c5_closed_no_active_preserved_when_cycling (op : Op) (s s' : SelectState)
    (hcyc : s.cycle_when_closed = true) (hinv : closed_active s)
    (h : apply_op op s = Except.ok s') : closed_active s' := by
  cases op with
  | click v resp =>
    cases h
    exact click_for_closed_active v resp s
  | key v k sh resp => exact keydown_closed_active v resp s k sh s' hcyc hinv h
  | input_ev dyn value resp =>
    cases h
    exact input_event_closed_active dyn resp s value hinv
  | blur =>
    cases h
    exact reset_closed_active s
  | store_set p recs =>
    cases h
    cases p <;> exact fun hcl => hinv hcl
  | sel_idx i =>
    cases h
    exact fun hcl => hinv hcl

/-- C5 counterexample: refutes the claim for the `DynamicTypeahead`
configuration (`cycle_when_closed = false`).  From the post-init state,
one debounced input event (which fills the list but never assigns
`is_open`) followed by one ArrowDown reaches a state with
`is_open = false` and a non-null `active`. -/
theorem c5_closed_state_with_active_reachable :
    open_after c5_result = some false ∧ active_after c5_result = some 0 ∧
    active_after c5_result ≠ none := by
  decide

/-- C5 witness: a blur operation on the post-init `Select` preserves
the invariant. -/
theorem c5_closed_no_active_preserved_when_cycling_witness :
    (init_select.cycle_when_closed = true ∧ closed_active init_select ∧
      apply_op Op.blur init_select = Except.ok (on_input_blur init_select)) ∧
    closed_active (on_input_blur init_select) :=
  ⟨⟨rfl, fun _ => rfl, rfl⟩,
    c5_closed_no_active_preserved_when_cycling Op.blur init_select
      (on_input_blur init_select) rfl (fun _ => rfl) rfl⟩

/-- C6: with the suppress gate policy (`handle_min_characters`
disabled), an input event whose text is shorter than the configured
minimum leaves the visible set — and the store, highlight, selection,
open flag and notification log — exactly as before the keystroke. -/
theorem c6_short_input_suppressed_leaves_state (dyn : Bool) (resp : List Rec)
    (s : SelectState) (value : String) (hlen : value.length < s.min_characters)
    (hgate : s.handle_min_characters = false) :
    (typeahead_input_event dyn resp s value).items = s.items ∧
    (typeahead_input_event dyn resp s value).store = s.store ∧
    (typeahead_input_event dyn resp s value).active = s.active ∧
    (typeahead_input_event dyn resp s value).item = s.item ∧
    (typeahead_input_event dyn resp s value).is_open = s.is_open ∧
    (typeahead_input_event dyn resp s value).emitted = s.emitted := by
  have hpre : input_pre s value = none := by
    simp [input_pre, input_gate, hlen, hgate]
  simp [typeahead_input_event, hpre]

/-- C6 witness: a one-character keystroke on the post-init
`DynamicTypeahead` (threshold 3, suppress policy) changes nothing. -/
theorem c6_short_input_suppressed_leaves_state_witness :
    (("a" : String).length < init_dynamic.min_characters ∧
      init_dynamic.handle_min_characters = false) ∧
    ((typeahead_input_event true [⟨"zed"⟩] init_dynamic "a").items = init_dynamic.items ∧
      (typeahead_input_event true [⟨"zed"⟩] init_dynamic "a").store = init_dynamic.store ∧
      (typeahead_input_event true [⟨"zed"⟩] init_dynamic "a").active = init_dynamic.active ∧
      (typeahead_input_event true [⟨"zed"⟩] init_dynamic "a").item = init_dynamic.item ∧
      (typeahead_input_event true [⟨"zed"⟩] init_dynamic "a").is_open = init_dynamic.is_open ∧
      (typeahead_input_event true [⟨"zed"⟩] init_dynamic "a").emitted = init_dynamic.emitted) :=
  ⟨⟨by decide, rfl⟩,
    c6_short_input_suppressed_leaves_state true [⟨"zed"⟩] init_dynamic "a" (by decide) rfl⟩

/-- C7 (amended): opening the dropdown of an open widget places the
overlay at top = anchor bottom + vertical scroll, left = anchor left +
horizontal scroll, width = anchor width, and attaches the resize
listener; a viewport resize occurring while open does not recompute the
placement — the installed handler closes the dropdown (removing it from
the body and detaching the listener, placement left stale); closing
always detaches the listener. -/
theorem c7_placement_formula_resize_closes (r : Rect) (vp : Viewport) (o : OverlayState)
    (ho : o.is_open = true) :
    ((open_dropdown r vp o).top = some (r.bottom + vp.scroll_y) ∧
      (open_dropdown r vp o).left = some (r.left + vp.scroll_x) ∧
      (open_dropdown r vp o).width = some r.width ∧
      (open_dropdown r vp o).resize_attached = true ∧
      (open_dropdown r vp o).in_body = true) ∧
    (resize_event (open_dropdown r vp o) = close_dropdown (open_dropdown r vp o) ∧
      (resize_event (open_dropdown r vp o)).top = (open_dropdown r vp o).top ∧
      (resize_event (open_dropdown r vp o)).in_body = false ∧
      (resize_event (open_dropdown r vp o)).resize_attached = false) ∧
    (∀ o2 : OverlayState, (close_dropdown o2).resize_attached = false ∧
      (close_dropdown o2).top = o2.top) := by
  refine ⟨?_, ?_, fun o2 => ⟨rfl, rfl⟩⟩
  · simp [open_dropdown, update_dropdown_position, ho]
  · refine ⟨?_, ?_, ?_, ?_⟩ <;>
      simp [resize_event, open_dropdown, close_dropdown, update_dropdown_position, ho]

/-- C7 counterexample: refutes the recompute-on-resize part of the
claim.  After opening at anchor ⟨10, 5, 100⟩ with scroll ⟨0, 3⟩ the
overlay sits at top 13; a resize that moves the anchor to
⟨20, 7, 120⟩ must, per the claim, re-place the overlay at top 23 while
open — instead the dropdown is closed and the placement stays 13. -/
theorem c7_resize_does_not_reposition :
    c7_after_resize.top = some 13 ∧
    c7_after_resize.top ≠ some (c7_rect2.bottom + c7_vp.scroll_y) ∧
    c7_after_resize.in_body = false ∧ c7_after_resize.resize_attached = false := by
  decide

/-- C7 witness: the amended theorem at the concrete open/resize
scenario. -/
theorem c7_placement_formula_resize_closes_witness :
    (c7_base.is_open = true) ∧
    (((open_dropdown c7_rect1 c7_vp c7_base).top =
        some (c7_rect1.bottom + c7_vp.scroll_y) ∧
      (open_dropdown c7_rect1 c7_vp c7_base).left =
        some (c7_rect1.left + c7_vp.scroll_x) ∧
      (open_dropdown c7_rect1 c7_vp c7_base).width = some c7_rect1.width ∧
      (open_dropdown c7_rect1 c7_vp c7_base).resize_attached = true ∧
      (open_dropdown c7_rect1 c7_vp c7_base).in_body = true) ∧
    (resize_event (open_dropdown c7_rect1 c7_vp c7_base) =
        close_dropdown (open_dropdown c7_rect1 c7_vp c7_base) ∧
      (resize_event (open_dropdown c7_rect1 c7_vp c7_base)).top =
        (open_dropdown c7_rect1 c7_vp c7_base).top ∧
      (resize_event (open_dropdown c7_rect1 c7_vp c7_base)).in_body = false ∧
      (resize_event (open_dropdown c7_rect1 c7_vp c7_base)).resize_attached = false) ∧
    (∀ o2 : OverlayState, (close_dropdown o2).resize_attached = false ∧
      (close_dropdown o2).top = o2.top)) :=
  ⟨rfl, c7_placement_formula_resize_closes c7_rect1 c7_vp c7_base rfl⟩

/-- C8 (amended): an arrow keydown on an open widget with an empty
visible set and no highlight is a no-op only under the
`cycle_when_closed = false` policy; under `cycle_when_closed = true`
(the plain `Select`) the handler reads the missing first/last entry of
the empty list and throws a `TypeError` — the claim's "under either
policy" does not hold. -/
theorem c8_empty_visible_arrow_navigation (v : Variant) (resp : List Rec)
    (s : SelectState) (k : Key) (ho : s.is_open = true) (hi : s.items = [])
    (ha : s.active = none) (hk : k = Key.arrow_down ∨ k = Key.arrow_up) :
    (s.cycle_when_closed = false → on_input_key_down v resp s k false = Except.ok s) ∧
    (s.cycle_when_closed = true →
      errored (on_input_key_down v resp s k false) = true) := by
  constructor
  · intro hc
    rcases hk with rfl | rfl <;> simp [on_input_key_down, ho, hi, hc]
  · intro hc
    rcases hk with rfl | rfl <;>
      simp [on_input_key_down, nav_target, nav_apply, errored, ho, hi, ha, hc]

/-- C8 counterexample: refutes the claim under the enabled cycling
policy: the open plain `Select` with an empty catalog (hence an empty
visible set) throws on ArrowDown instead of doing nothing. -/
theorem c8_empty_arrow_throws_when_cycling :
    c8_state.is_open = true ∧ c8_state.items = [] ∧
    c8_state.cycle_when_closed = true ∧
    errored (on_input_key_down Variant.plain [] c8_state Key.arrow_down false) = true := by
  decide

/-- C8 witness: the amended theorem at the open empty-visible-set
state. -/
theorem c8_empty_visible_arrow_navigation_witness :
    (c8_state.is_open = true ∧ c8_state.items = [] ∧ c8_state.active = none ∧
      (Key.arrow_down = Key.arrow_down ∨ Key.arrow_down = Key.arrow_up)) ∧
    ((c8_state.cycle_when_closed = false →
      on_input_key_down Variant.plain [] c8_state Key.arrow_down false =
        Except.ok c8_state) ∧
    (c8_state.cycle_when_closed = true →
      errored (on_input_key_down Variant.plain [] c8_state Key.arrow_down false) = true)) :=
  ⟨⟨by decide, by decide, by decide, Or.inl rfl⟩,
    c8_empty_visible_arrow_navigation Variant.plain [] c8_state Key.arrow_down
      (by decide) (by decide) (by decide) (Or.inl rfl)⟩

/-- C9 (amended): the init method installs default label and content
derivation functions unconditionally, so constructing the widget
without host-supplied derivation functions does not fail — then and at
first use: for every record list, setting the store and opening by
click succeeds with the dropdown open and every entry visible. -/
theorem c9_missing_derivations_never_fail (recs : List Rec) :
    construct_select = Except.ok init_select ∧
    (select_click (set_store_plain init_select recs)).is_open = true ∧
    (select_click (set_store_plain init_select recs)).items = List.range recs.length := by
  refine ⟨rfl, select_click_of_closed_is_open _ rfl, ?_⟩
  rw [select_click_of_closed_items _ rfl]
  rfl

/-- C9 counterexample: refutes "fails immediately at construction":
construction without any host-supplied derivation function succeeds
(`Except.ok`), and the widget is fully usable — after storing
[alpha, beta] and clicking, the dropdown is open, both entries are
visible, the first is selected and its default-derived label is
"alpha". -/
theorem c9_construction_without_fns_succeeds :
    construct_select = Except.ok init_select ∧
    c9_used.is_open = true ∧ c9_used.items = [0, 1] ∧ c9_used.item = some 0 ∧
    widget_label c9_used = "alpha" := by
  refine ⟨rfl, ?_⟩
  decide

/-- C10: pressing Enter while the dropdown is closed opens it and
commits nothing (selection and notification log unchanged); pressing
Enter while open with a null highlight and a non-empty visible set
commits the first visible entry (dropdown closes, highlight clears). -/
theorem c10_enter_closed_opens_enter_open_commits_first (s : SelectState)
    (resp : List Rec) :
    (s.is_open = false →
      ∃ s', on_input_key_down Variant.plain resp s Key.enter false = Except.ok s' ∧
        s'.is_open = true ∧ s'.emitted = s.emitted ∧ s'.item = s.item) ∧
    (s.is_open = true → s.active = none → s.items ≠ [] →
      ∃ s', on_input_key_down Variant.plain resp s Key.enter false = Except.ok s' ∧
        s'.item = some (s.items.getD 0 0) ∧ s'.is_open = false ∧ s'.active = none) := by
  constructor
  · intro hc
    have hred : on_input_key_down Variant.plain resp s Key.enter false =
        Except.ok (select_click s) := by
      simp [on_input_key_down, click_for, hc]
    exact ⟨select_click s, hred, select_click_of_closed_is_open s hc,
      select_click_emitted s, select_click_of_closed_item s hc⟩
  · intro ho ha hne
    obtain ⟨x, t, hxt⟩ : ∃ x t, s.items = x :: t := by
      cases hi : s.items with
      | nil => exact absurd hi hne
      | cons x t => exact ⟨x, t, rfl⟩
    have hred : on_input_key_down Variant.plain resp s Key.enter false =
        on_li_click s (some x) := by
      simp [on_input_key_down, ho, ha, hxt]
    obtain ⟨s', h1, h2, h3, h4, _, _, _⟩ := on_li_click_some s x
    refine ⟨s', by rw [hred]; exact h1, ?_, h4, h3⟩
    rw [h2, hxt]
    rfl

/-- C10 witness: Enter on the closed two-record `Select` opens it
without committing; Enter on the open widget with a null highlight
commits the first visible entry (index 0). -/
theorem c10_enter_closed_opens_enter_open_commits_first_witness :
    ((set_store_plain init_select two_recs).is_open = false ∧
      ∃ s', on_input_key_down Variant.plain [] (set_store_plain init_select two_recs)
          Key.enter false = Except.ok s' ∧
        s'.is_open = true ∧ s'.emitted = (set_store_plain init_select two_recs).emitted ∧
        s'.item = (set_store_plain init_select two_recs).item) ∧
    (c10_open_state.is_open = true ∧ c10_open_state.active = none ∧
      c10_open_state.items ≠ [] ∧
      ∃ s', on_input_key_down Variant.plain [] c10_open_state Key.enter false =
          Except.ok s' ∧
        s'.item = some (c10_open_state.items.getD 0 0) ∧ s'.is_open = false ∧
        s'.active = none) :=
  ⟨⟨rfl, (c10_enter_closed_opens_enter_open_commits_first
      (set_store_plain init_select two_recs) []).1 rfl⟩,
    ⟨by decide, by decide, by decide,
      (c10_enter_closed_opens_enter_open_commits_first c10_open_state []).2
        (by decide) (by decide) (by decide)⟩⟩

end SomeJS
